import Mathlib

/-!
Verification of the identity and access-control core of the water backend
(FastAPI application under backend/app).  Python routines are shallowly
embedded as executable Lean functions: database state is passed explicitly,
machine integers are Nat, HTTP errors are explicit values, and fallible
operations return Except.  Time is modelled as seconds (Nat).
-/

namespace Water

/-- An HTTPException as raised by the FastAPI handlers: status code plus
the detail string. -/
structure HErr where
  status : Nat
  detail : String
deriving DecidableEq, Repr

/-! ## Token issuer / verifier (app/auth.py)

A JWT as produced by jose.jwt.encode is modelled abstractly: a token is
either structurally malformed, or a signed payload carrying the key it was
signed with.  jose.jwt.decode succeeds exactly on a structurally valid
token whose signature matches the given key and whose exp claim has not
passed; the payload dict produced by create_access_token and
create_refresh_token is the record {sub, exp, type}. -/

/-- The claims dict of a token produced by this application:
the subject, the expiry timestamp and the type claim. -/
structure Claims where
  sub : String
  exp : Nat
  typ : String
deriving DecidableEq, Repr

/-- A JWT string as seen by the verifier: either malformed, or a payload
signed under some key. -/
inductive JWToken where
  | malformed : JWToken
  | signed (claims : Claims) (key : Nat) : JWToken
deriving DecidableEq, Repr

/-- Modelled behaviour of jose.jwt.decode with exp validation: returns the
payload iff the structure is valid, the signing key matches, and the expiry
lies in the future; raises JWTError (here: none) otherwise. -/
def jwtDecode (t : JWToken) (key : Nat) (now : Nat) : Option Claims :=
  match t with
  | .malformed => none
  | .signed c k => if k = key ∧ now < c.exp then some c else none

/-- Settings.ACCESS_TOKEN_EXPIRE_MINUTES (app/config.py default). -/
def ACCESS_TOKEN_EXPIRE_MINUTES : Nat := 30

/-- Settings.REFRESH_TOKEN_EXPIRE_DAYS (app/config.py default). -/
def REFRESH_TOKEN_EXPIRE_DAYS : Nat := 7

/-- create_access_token (app/auth.py lines 35-45) with the default expiry:
payload is data plus exp = now + 30 minutes and type = "access", signed
with the shared secret. -/
def create_access_token (sub : String) (now : Nat) (key : Nat) : JWToken :=
  .signed ⟨sub, now + ACCESS_TOKEN_EXPIRE_MINUTES * 60, "access"⟩ key

/-- create_refresh_token (app/auth.py lines 48-54): payload is data plus
exp = now + 7 days and type = "refresh", signed with the shared secret. -/
def create_refresh_token (sub : String) (now : Nat) (key : Nat) : JWToken :=
  .signed ⟨sub, now + REFRESH_TOKEN_EXPIRE_DAYS * 86400, "refresh"⟩ key

/-- verify_token (app/auth.py lines 57-65): decode, then reject a payload
whose type claim differs from the expected token_type; any JWTError from
decoding yields None. -/
def verify_token (t : JWToken) (key : Nat) (now : Nat) (token_type : String) :
    Option Claims :=
  match jwtDecode t key now with
  | none => none
  | some payload => if payload.typ ≠ token_type then none else some payload

example : verify_token (create_access_token "u" 0 7) 7 10 "access" =
    some ⟨"u", 1800, "access"⟩ := rfl

example : verify_token (create_access_token "u" 0 7) 7 10 "refresh" = none := rfl

example : verify_token (create_refresh_token "u" 0 7) 7 10 "access" = none := rfl

example : verify_token (create_access_token "u" 0 7) 8 10 "access" = none := rfl

example : verify_token (create_access_token "u" 0 7) 7 1800 "access" = none := rfl

example : verify_token .malformed 7 0 "access" = none := rfl

theorem jwtDecode_some_iff (t : JWToken) (key now : Nat) (c : Claims) :
    jwtDecode t key now = some c ↔ t = .signed c key ∧ now < c.exp := by
  cases t with
  | malformed => simp [jwtDecode]
  | signed c2 k2 =>
    simp only [jwtDecode]
    constructor
    · intro h
      by_cases hc : k2 = key ∧ now < c2.exp
      · rw [if_pos hc] at h
        obtain rfl := Option.some.inj h
        exact ⟨by rw [hc.1], hc.2⟩
      · rw [if_neg hc] at h
        exact Option.noConfusion h
    · rintro ⟨heq, hexp⟩
      obtain ⟨rfl, rfl⟩ := (JWToken.signed.injEq _ _ _ _).mp heq
      rw [if_pos ⟨rfl, hexp⟩]

/-- C3: token verification is total and type-disjoint.  verify_token
returns a payload exactly when the token is structurally valid, signed
under the expected key, unexpired, and carries the expected type claim;
it returns none on signature mismatch, past expiry, wrong type claim or
malformed structure.  In particular a refresh token is rejected when an
access token is expected and vice versa, for any verification time. -/
theorem verify_token_type_disjoint (key now : Nat) (k : String) :
    (∀ t p, verify_token t key now k = some p ↔
        t = .signed p key ∧ now < p.exp ∧ p.typ = k) ∧
    (∀ sub n m, verify_token (create_refresh_token sub n key) key m "access" = none) ∧
    (∀ sub n m, verify_token (create_access_token sub n key) key m "refresh" = none) := by
  have hver : ∀ (t : JWToken) (now2 : Nat) (k2 : String) (p : Claims),
      verify_token t key now2 k2 = some p ↔
        t = .signed p key ∧ now2 < p.exp ∧ p.typ = k2 := by
    intro t now2 k2 p
    unfold verify_token
    cases hd : jwtDecode t key now2 with
    | none =>
      simp only [hd]
      constructor
      · intro h; exact Option.noConfusion h
      · rintro ⟨rfl, hexp, htyp⟩
        have hs : jwtDecode (JWToken.signed p key) key now2 = some p :=
          (jwtDecode_some_iff _ _ _ _).mpr ⟨rfl, hexp⟩
        rw [hd] at hs
        exact Option.noConfusion hs
    | some payload =>
      simp only [hd]
      have hpay := (jwtDecode_some_iff t key now2 payload).mp hd
      by_cases ht : payload.typ ≠ k2
      · rw [if_pos ht]
        constructor
        · intro h; exact Option.noConfusion h
        · rintro ⟨rfl, hexp, htyp⟩
          have hpp : p = payload := by
            have h3 := (jwtDecode_some_iff _ key now2 payload).mp hd
            exact ((JWToken.signed.injEq _ _ _ _).mp h3.1).1
          exact absurd (hpp ▸ htyp) ht
      · rw [if_neg ht]
        push_neg at ht
        constructor
        · intro h
          obtain rfl := Option.some.inj h
          exact ⟨hpay.1, hpay.2, ht⟩
        · rintro ⟨rfl, hexp, htyp⟩
          have hpp : p = payload := by
            have h3 := (jwtDecode_some_iff _ key now2 payload).mp hd
            exact ((JWToken.signed.injEq _ _ _ _).mp h3.1).1
          rw [hpp]
  refine ⟨fun t p => hver t now k p, fun sub n m => ?_, fun sub n m => ?_⟩
  · cases hv : verify_token (create_refresh_token sub n key) key m "access" with
    | none => rfl
    | some p =>
      have := (hver _ m "access" p).mp hv
      have h1 : p.typ = "refresh" := by
        have h2 := this.1
        unfold create_refresh_token at h2
        cases h2; rfl
      rw [h1] at this
      exact absurd this.2.2 (by simp)
  · cases hv : verify_token (create_access_token sub n key) key m "refresh" with
    | none => rfl
    | some p =>
      have := (hver _ m "refresh" p).mp hv
      have h1 : p.typ = "access" := by
        have h2 := this.1
        unfold create_access_token at h2
        cases h2; rfl
      rw [h1] at this
      exact absurd this.2.2 (by simp)

/-! ## Login, lockout and second factor (app/routers/auth.py)

The login and verify-2fa handlers touch exactly one user row (looked up by
username) and append audit rows; they are embedded as functions of the
looked-up row.  The password check verify_password and the TOTP check
verify_totp are passed in as parameters, since the handlers depend only on
their boolean outcome. -/

/-- The fields of the users table read or written by the auth handlers
(app/models.py User). -/
structure UserR where
  id : Nat
  username : String
  hashed_password : String
  is_2fa_enabled : Bool
  totp_secret : Option String
  failed_login_attempts : Nat
  locked_until : Option Nat
  last_login : Option Nat
  role : Nat
  region_id : Option Nat
  hospital_id : Option Nat
deriving DecidableEq, Repr

/-- An audit row as appended by log_login (app/audit.py lines 80-101):
action user_login, the target user id, success/failure status, optional
failure reason, and the actor (set only on success). -/
structure AuditEvent where
  action : String
  resource_id : Option Nat
  status : String
  reason : Option String
  actor : Option Nat
deriving DecidableEq, Repr

/-- log_login (app/audit.py lines 80-101) reduced to the produced row. -/
def log_login (u : UserR) (stat : String) (reason : Option String) : AuditEvent :=
  { action := "user_login"
    resource_id := some u.id
    status := stat
    reason := reason
    actor := if stat = "success" then some u.id else none }

/-- The successful outcome of the login flow: either the tokens of a
TokenResponse, or the Token2FAResponse marker requiring 2FA. -/
inductive LoginOk where
  | twofa : LoginOk
  | tokens (access refr : JWToken) : LoginOk
deriving DecidableEq, Repr

/-- Result of a login-flow handler: outcome, updated user row (none when
no row matched the username) and appended audit rows. -/
structure LoginRes where
  out : Except HErr LoginOk
  user : Option UserR
  audit : List AuditEvent
deriving Repr

/-- Python truthiness of an optional datetime: None is falsy, every
datetime value is truthy. -/
def pyDtTruthy : Option Nat → Bool
  | none => false
  | some _ => true

/-- login (app/routers/auth.py lines 95-148).  checkPw stands for
verify_password; u? is the row found for the submitted username.  A wrong
password (or unknown username) is a 401 with the single generic detail; a
failure is logged and counted only when the row exists, and the fifth
consecutive failure sets locked_until 15 minutes ahead.  The lock gate
rejects with 403 while now < locked_until, before the 2FA branch. -/
def login (checkPw : String → String → Bool) (u? : Option UserR)
    (password : String) (now : Nat) (key : Nat) : LoginRes :=
  match u? with
  | none =>
    { out := .error ⟨401, "Incorrect username or password"⟩
      user := none, audit := [] }
  | some u =>
    if ¬ checkPw password u.hashed_password then
      let u1 : UserR := { u with failed_login_attempts := u.failed_login_attempts + 1 }
      let u2 : UserR :=
        if u1.failed_login_attempts ≥ 5 then
          { u1 with locked_until := some (now + 15 * 60) }
        else u1
      { out := .error ⟨401, "Incorrect username or password"⟩
        user := some u2
        audit := [log_login u "failure" (some "Invalid password")] }
    else if pyDtTruthy u.locked_until ∧ u.locked_until.getD 0 > now then
      { out := .error ⟨403, "Account locked until " ++ toString (u.locked_until.getD 0)⟩
        user := some u
        audit := [log_login u "failure" (some "Account locked")] }
    else if u.is_2fa_enabled then
      { out := .ok .twofa, user := some u, audit := [] }
    else
      { out := .ok (.tokens (create_access_token u.username now key)
                            (create_refresh_token u.username now key))
        user := some { u with failed_login_attempts := 0, locked_until := none,
                              last_login := some now }
        audit := [log_login u "success" none] }

/-- verify_2fa (app/routers/auth.py lines 151-191).  totpOk stands for
verify_totp applied to the stored secret.  The handler never reads
locked_until or failed_login_attempts before deciding; a correct code
resets both, a wrong code changes nothing. -/
def verify_2fa (totpOk : Option String → String → Bool) (u? : Option UserR)
    (code : String) (now : Nat) (key : Nat) : LoginRes :=
  match u? with
  | none =>
    { out := .error ⟨400, "2FA not enabled for this user"⟩
      user := none, audit := [] }
  | some u =>
    if ¬ u.is_2fa_enabled then
      { out := .error ⟨400, "2FA not enabled for this user"⟩
        user := some u, audit := [] }
    else if ¬ totpOk u.totp_secret code then
      { out := .error ⟨401, "Invalid 2FA code"⟩
        user := some u
        audit := [log_login u "failure" (some "Invalid 2FA code")] }
    else
      { out := .ok (.tokens (create_access_token u.username now key)
                            (create_refresh_token u.username now key))
        user := some { u with failed_login_attempts := 0, locked_until := none,
                              last_login := some now }
        audit := [log_login u "success" none] }

/-- The user row after a login attempt, threading the unchanged row when
the lookup failed (the handler touches no row in that case). -/
def loginUser (checkPw : String → String → Bool) (u : UserR) (password : String)
    (now : Nat) (key : Nat) : UserR :=
  match (login checkPw (some u) password now key).user with
  | some v => v
  | none => u

/-- The user row after consecutive login attempts with the same password
at the given times. -/
def afterAttempts (checkPw : String → String → Bool) (u : UserR) (password : String)
    (ts : List Nat) (key : Nat) : UserR :=
  ts.foldl (fun v t => loginUser checkPw v password t key) u

/-- Sample user for concrete evaluation. -/
def uSample : UserR :=
  { id := 1, username := "alice", hashed_password := "H",
    is_2fa_enabled := false, totp_secret := none,
    failed_login_attempts := 0, locked_until := none, last_login := none,
    role := 2, region_id := none, hospital_id := none }

/-- Sample stand-in for verify_password: accepted iff the submitted
password equals the stored string. -/
def chkSample : String → String → Bool := fun p h => p == h

example : (afterAttempts chkSample uSample "x" [1, 2, 3, 4, 5] 9).failed_login_attempts
    = 5 := rfl

example : (afterAttempts chkSample uSample "x" [1, 2, 3, 4, 5] 9).locked_until
    = some (5 + 15 * 60) := rfl

example : (afterAttempts chkSample uSample "x" [1, 2, 3, 4] 9).locked_until = none := rfl

example : (login chkSample (some (afterAttempts chkSample uSample "x" [1, 2, 3, 4, 5] 9))
    "H" 100 9).out = .error ⟨403, "Account locked until 905"⟩ := rfl

example : (login chkSample (some (afterAttempts chkSample uSample "x" [1, 2, 3, 4, 5] 9))
    "H" 905 9).out = .ok (.tokens (create_access_token "alice" 905 9)
      (create_refresh_token "alice" 905 9)) := rfl

/-- C2: five consecutive failed attempts lock the account for 15 minutes;
a sixth attempt inside the window (now < locked_until) fails with Locked
even with the correct password; once the expiry has passed a correct
password succeeds and resets the counter and the lock.  For an identity
with 2FA enabled the correct password yields the 2FA challenge and the
successful second-factor completion performs the same reset. -/
theorem lockout_five_failures (chk : String → String → Bool) (u0 : UserR)
    (pwBad pwGood : String) (key t1 t2 t3 t4 t5 t6 t7 : Nat)
    (h0 : u0.failed_login_attempts = 0)
    (hL : u0.locked_until = none)
    (hbad : chk pwBad u0.hashed_password = false)
    (hgood : chk pwGood u0.hashed_password = true)
    (hwin : t6 < t5 + 15 * 60)
    (hexp : t5 + 15 * 60 ≤ t7) :
    -- every wrong-password attempt is the generic 401
    (∀ (v : UserR) (t : Nat), v.hashed_password = u0.hashed_password →
        (login chk (some v) pwBad t key).out =
          .error ⟨401, "Incorrect username or password"⟩) ∧
    -- the fifth consecutive failure transitions the row to Locked,
    -- expiring 15 minutes after the fifth attempt
    afterAttempts chk u0 pwBad [t1, t2, t3, t4, t5] key =
      { u0 with failed_login_attempts := 5, locked_until := some (t5 + 15 * 60) } ∧
    -- a sixth attempt during the window fails with Locked despite the
    -- correct password, leaving the row unchanged
    (login chk (some (afterAttempts chk u0 pwBad [t1, t2, t3, t4, t5] key))
        pwGood t6 key).out =
      .error ⟨403, "Account locked until " ++ toString (t5 + 15 * 60)⟩ ∧
    (login chk (some (afterAttempts chk u0 pwBad [t1, t2, t3, t4, t5] key))
        pwGood t6 key).user =
      some { u0 with failed_login_attempts := 5, locked_until := some (t5 + 15 * 60) } ∧
    -- after the expiry a correct password succeeds and resets the
    -- counter and the lock (directly, or through the second factor)
    (u0.is_2fa_enabled = false →
      (login chk (some (afterAttempts chk u0 pwBad [t1, t2, t3, t4, t5] key))
          pwGood t7 key).out =
        .ok (.tokens (create_access_token u0.username t7 key)
          (create_refresh_token u0.username t7 key)) ∧
      (login chk (some (afterAttempts chk u0 pwBad [t1, t2, t3, t4, t5] key))
          pwGood t7 key).user =
        some { u0 with failed_login_attempts := 0, locked_until := none,
                       last_login := some t7 }) ∧
    (u0.is_2fa_enabled = true →
      (login chk (some (afterAttempts chk u0 pwBad [t1, t2, t3, t4, t5] key))
          pwGood t7 key).out = .ok .twofa ∧
      ∀ (totpOk : Option String → String → Bool) (code : String),
        totpOk u0.totp_secret code = true →
        (verify_2fa totpOk
            (login chk (some (afterAttempts chk u0 pwBad [t1, t2, t3, t4, t5] key))
              pwGood t7 key).user code t7 key).out =
          .ok (.tokens (create_access_token u0.username t7 key)
            (create_refresh_token u0.username t7 key)) ∧
        (verify_2fa totpOk
            (login chk (some (afterAttempts chk u0 pwBad [t1, t2, t3, t4, t5] key))
              pwGood t7 key).user code t7 key).user =
          some { u0 with failed_login_attempts := 0, locked_until := none,
                         last_login := some t7 }) := by
  have hfail : ∀ (v : UserR) (t : Nat), v.hashed_password = u0.hashed_password →
      (login chk (some v) pwBad t key).out =
        .error ⟨401, "Incorrect username or password"⟩ := by
    intro v t hv
    simp [login, hv, hbad]
  have h5 : afterAttempts chk u0 pwBad [t1, t2, t3, t4, t5] key =
      { u0 with failed_login_attempts := 5, locked_until := some (t5 + 15 * 60) } := by
    simp [afterAttempts, loginUser, login, hbad, h0, hL]
  refine ⟨hfail, h5, ?_, ?_, ?_, ?_⟩
  · rw [h5]
    simp [login, hgood, pyDtTruthy, hwin]
  · rw [h5]
    simp [login, hgood, pyDtTruthy, hwin]
  · intro h2fa
    rw [h5]
    simp [login, hgood, pyDtTruthy, h2fa, Nat.not_lt.mpr hexp]
  · intro h2fa
    rw [h5]
    refine ⟨by simp [login, hgood, pyDtTruthy, h2fa, Nat.not_lt.mpr hexp], ?_⟩
    intro totpOk code hcode
    have hu : (login chk
        (some { u0 with failed_login_attempts := 5, locked_until := some (t5 + 15 * 60) })
        pwGood t7 key).user =
        some { u0 with failed_login_attempts := 5, locked_until := some (t5 + 15 * 60) } := by
      simp [login, hgood, pyDtTruthy, h2fa, Nat.not_lt.mpr hexp]
    rw [hu]
    constructor
    · simp [verify_2fa, h2fa, hcode]
    · simp [verify_2fa, h2fa, hcode]

/-- Witness for C2 at the sample identity: five wrong passwords at times
1..5 lock until 905, the correct password fails at time 100 and succeeds
at time 905. -/
theorem lockout_five_failures_witness :
    afterAttempts chkSample uSample "x" [1, 2, 3, 4, 5] 9 =
      { uSample with failed_login_attempts := 5, locked_until := some (5 + 15 * 60) } ∧
    (login chkSample (some (afterAttempts chkSample uSample "x" [1, 2, 3, 4, 5] 9))
        "H" 100 9).out =
      .error ⟨403, "Account locked until " ++ toString (5 + 15 * 60)⟩ ∧
    (login chkSample (some (afterAttempts chkSample uSample "x" [1, 2, 3, 4, 5] 9))
        "H" 905 9).out =
      .ok (.tokens (create_access_token uSample.username 905 9)
        (create_refresh_token uSample.username 905 9)) := by
  have h := lockout_five_failures chkSample uSample "x" "H" 9 1 2 3 4 5 100 905
      rfl rfl rfl rfl (by decide) (by decide)
  exact ⟨h.2.1, h.2.2.1, (h.2.2.2.2.1 rfl).1⟩

/-- Sample identity with 2FA enabled that is currently locked out. -/
def u2Sample : UserR :=
  { uSample with is_2fa_enabled := true, totp_secret := some "S",
                 failed_login_attempts := 3, locked_until := some 1000 }

/-- Sample stand-in for verify_totp: accepts exactly the code 123456. -/
def totpSample : Option String → String → Bool := fun _ c => c == "123456"

/-- C10: the verify-2fa handler never consults the lockout state and never
touches the failure counter on a wrong code: with 2FA enabled, a correct
TOTP code yields a token pair even while locked_until is in the future
(and resets the counter and lock), while a wrong code returns 401 and
leaves failed_login_attempts and locked_until exactly as they were. -/
theorem verify_2fa_ignores_lockout (totpOk : Option String → String → Bool)
    (u : UserR) (code : String) (now key lockT : Nat)
    (h2fa : u.is_2fa_enabled = true) :
    (totpOk u.totp_secret code = true → u.locked_until = some lockT → now < lockT →
      (verify_2fa totpOk (some u) code now key).out =
        .ok (.tokens (create_access_token u.username now key)
          (create_refresh_token u.username now key)) ∧
      (verify_2fa totpOk (some u) code now key).user =
        some { u with failed_login_attempts := 0, locked_until := none,
                      last_login := some now }) ∧
    (totpOk u.totp_secret code = false →
      (verify_2fa totpOk (some u) code now key).out = .error ⟨401, "Invalid 2FA code"⟩ ∧
      (verify_2fa totpOk (some u) code now key).user = some u) := by
  constructor
  · intro hok _ _
    constructor
    · simp [verify_2fa, h2fa, hok]
    · simp [verify_2fa, h2fa, hok]
  · intro hko
    constructor
    · simp [verify_2fa, h2fa, hko]
    · simp [verify_2fa, h2fa, hko]

/-- Witness for C10: the locked sample identity completes 2FA with the
correct code at time 10 (lock expiry 1000), and a wrong code leaves the
row unchanged. -/
theorem verify_2fa_ignores_lockout_witness :
    (verify_2fa totpSample (some u2Sample) "123456" 10 9).out =
      .ok (.tokens (create_access_token u2Sample.username 10 9)
        (create_refresh_token u2Sample.username 10 9)) ∧
    (verify_2fa totpSample (some u2Sample) "000000" 10 9).user = some u2Sample := by
  have h := verify_2fa_ignores_lockout totpSample u2Sample "123456" 10 9 1000 rfl
  have h2 := verify_2fa_ignores_lockout totpSample u2Sample "000000" 10 9 1000 rfl
  exact ⟨(h.1 rfl rfl (by decide)).1, (h2.2 rfl).2⟩

/-- C6 counterexample: a login attempt with a username that matches no
account fails (with the generic 401), yet no failure row is recorded —
the handler logs and counts only when the row exists. -/
theorem login_unknown_user_not_recorded :
    (login chkSample none "x" 0 9).out =
      .error ⟨401, "Incorrect username or password"⟩ ∧
    (login chkSample none "x" 0 9).audit = [] := ⟨rfl, rfl⟩

/-- C6 amended: a failure is recorded only when an account with the
submitted username exists (an unknown username leaves the audit trail
untouched), and the error response is identical regardless of whether the
username or the password was wrong. -/
theorem login_failure_logging (chk : String → String → Bool) (u : UserR)
    (pw : String) (now key : Nat)
    (hbad : chk pw u.hashed_password = false) :
    (login chk none pw now key).out =
      .error ⟨401, "Incorrect username or password"⟩ ∧
    (login chk none pw now key).audit = [] ∧
    (login chk (some u) pw now key).out =
      .error ⟨401, "Incorrect username or password"⟩ ∧
    (login chk (some u) pw now key).audit =
      [log_login u "failure" (some "Invalid password")] ∧
    (login chk none pw now key).out = (login chk (some u) pw now key).out := by
  refine ⟨rfl, rfl, ?_, ?_, ?_⟩
  · simp [login, hbad]
  · simp [login, hbad]
  · simp [login, hbad]

/-- Witness for the amended C6 at the sample identity. -/
theorem login_failure_logging_witness :
    (login chkSample none "x" 0 9).audit = [] ∧
    (login chkSample (some uSample) "x" 0 9).audit =
      [log_login uSample "failure" (some "Invalid password")] ∧
    (login chkSample none "x" 0 9).out = (login chkSample (some uSample) "x" 0 9).out := by
  have h := login_failure_logging chkSample uSample "x" 0 9 rfl
  exact ⟨h.2.1, h.2.2.2.1, h.2.2.2.2⟩

/-! ## Email whitelist matcher (app/routers/auth.py lines 36-62)

Python strings are modelled as lists of characters for the matcher, since
it inspects characters (split at the at-sign, suffix test). -/

/-- An email string as a list of characters. -/
abbrev EmailS := List Char

/-- The loop-body test of register: domain d matches whitelist domain w
iff d == w or d ends with "." + w. -/
def domainMatches (userDomain wd : EmailS) : Bool :=
  userDomain == wd || List.isSuffixOf ('.' :: wd) userDomain

/-- user_domain = email.split(at, 1)[1]: everything after the FIRST
at-sign of the candidate. -/
def domainPart (cand : EmailS) : EmailS :=
  (cand.dropWhile (fun c => c != '@')).drop 1

/-- The whitelist lookup of register: first an exact-match query, then —
when nothing matched exactly and the candidate contains an at-sign — the
first stored entry beginning with an at-sign whose domain matches the
candidate domain. -/
def checkWhitelist (entries : List EmailS) (cand : EmailS) : Option EmailS :=
  match entries.find? (fun e => e == cand) with
  | some e => some e
  | none =>
    if cand.contains '@' then
      (entries.filter (fun e => e.head? == some '@')).find?
        (fun e => domainMatches (domainPart cand) (e.drop 1))
    else none

/-- register admits the candidate (does not raise 403 Forbidden) iff the
whitelist lookup produced an entry. -/
def registerAllowed (entries : List EmailS) (cand : EmailS) : Bool :=
  (checkWhitelist entries cand).isSome

/-- The whitelist gate of register (app/routers/auth.py lines 58-62):
raise 403 Forbidden when no entry matched. -/
def registerGate (entries : List EmailS) (cand : EmailS) : Except HErr Unit :=
  if registerAllowed entries cand then .ok ()
  else .error ⟨403,
    "Email not authorized for registration. Please contact an administrator."⟩

/-- Modelled from the spec: the matcher exactly as claim C4 words it, with
the domain phase gated on the candidate containing exactly ONE at-sign
(the code gates it on containing at least one). -/
def claimC4Allowed (entries : List EmailS) (cand : EmailS) : Bool :=
  entries.contains cand ||
  (cand.count '@' == 1 &&
    (entries.filter (fun e => e.head? == some '@')).any
      (fun e => domainMatches (domainPart cand) (e.drop 1)))

example : registerAllowed ["@example.com".toList] "user@sub.example.com".toList
    = true := rfl

example : registerAllowed ["@example.com".toList] "user@notexample.com".toList
    = false := rfl

example : registerAllowed ["admin@special.com".toList] "admin@special.com".toList
    = true := rfl

example : registerAllowed ["admin@special.com".toList] "x@special.com".toList
    = false := rfl

/-- C4 counterexample: a candidate with two at-signs.  The code splits at
the FIRST at-sign whenever at least one is present, so the whitelist
entry at-example.com admits the candidate, while the claim (domain phase
only for exactly one at-sign) would deny it. -/
theorem whitelist_two_ats_counterexample :
    registerAllowed ["@example.com".toList] "u@v@w.example.com".toList = true ∧
    claimC4Allowed ["@example.com".toList] "u@v@w.example.com".toList = false ∧
    "u@v@w.example.com".toList.count '@' = 2 := ⟨rfl, rfl, rfl⟩

theorem head?_at_eq_cons {e : EmailS} (h : (e.head? == some '@') = true) :
    e = '@' :: e.drop 1 := by
  cases e with
  | nil => simp at h
  | cons c cs =>
    simp only [List.head?, beq_iff_eq, Option.some.injEq] at h
    simp [h]

/-- C4 amended: the matcher first tests for an exact literal match; only
if there is no exact match and the candidate contains AT LEAST one
at-sign does it split off the domain (everything after the first at-sign)
and test it against every stored entry beginning with an at-sign, where
domain d matches whitelist domain w iff d == w or d ends with "." + w.
In particular user at sub.example.com is allowed by at-example.com,
user at notexample.com is denied, and a literal entry admin at
special.com admits exactly that one string. -/
theorem whitelist_matcher_amended (entries : List EmailS) (cand : EmailS) :
    (registerAllowed entries cand = true ↔
      cand ∈ entries ∨
      (cand.contains '@' = true ∧
        ∃ w, ('@' :: w) ∈ entries ∧ domainMatches (domainPart cand) w = true)) ∧
    registerAllowed ["@example.com".toList] "user@sub.example.com".toList = true ∧
    registerAllowed ["@example.com".toList] "user@notexample.com".toList = false ∧
    (∀ c : EmailS, registerAllowed ["admin@special.com".toList] c = true ↔
      c = "admin@special.com".toList) ∧
    (registerGate entries cand = .error ⟨403,
        "Email not authorized for registration. Please contact an administrator."⟩ ↔
      registerAllowed entries cand = false) := by
  have hchar : ∀ (es : List EmailS) (cd : EmailS),
      registerAllowed es cd = true ↔
        cd ∈ es ∨
        (cd.contains '@' = true ∧
          ∃ w, ('@' :: w) ∈ es ∧ domainMatches (domainPart cd) w = true) := by
    intro es cd
    have hff : ∀ q : EmailS → Bool,
        ((es.filter (fun e => e.head? == some '@')).find? q).isSome = true ↔
          ∃ w, ('@' :: w) ∈ es ∧ q ('@' :: w) = true := by
      intro q
      rw [List.find?_isSome]
      constructor
      · rintro ⟨x, hxmem, hxq⟩
        rw [List.mem_filter] at hxmem
        obtain ⟨hxes, hxhead⟩ := hxmem
        have hx2 := head?_at_eq_cons hxhead
        refine ⟨x.drop 1, ?_, ?_⟩
        · rw [← hx2]; exact hxes
        · rw [← hx2]; exact hxq
      · rintro ⟨w, hw, hq⟩
        refine ⟨'@' :: w, ?_, hq⟩
        rw [List.mem_filter]
        exact ⟨hw, by simp⟩
    unfold registerAllowed checkWhitelist
    cases hf : es.find? (fun e => e == cd) with
    | some e =>
      have he : e = cd := by
        have := List.find?_some hf
        exact beq_iff_eq.mp this
      have hmem : cd ∈ es := he ▸ List.mem_of_find?_eq_some hf
      simp only [hf]
      simp [hmem]
    | none =>
      have hnm : cd ∉ es := by
        intro hmem
        have := List.find?_eq_none.mp hf cd hmem
        simp at this
      simp only [hf]
      by_cases hat : cd.contains '@' = true
      · rw [if_pos hat, hff]
        constructor
        · intro h
          exact Or.inr ⟨hat, h⟩
        · rintro (hc | ⟨-, h⟩)
          · exact absurd hc hnm
          · exact h
      · rw [if_neg hat]
        have hat2 : '@' ∉ cd := fun hm => hat (by simp [hm])
        simp [hat2, hnm]
  refine ⟨hchar entries cand, rfl, rfl, fun c => ?_, ?_⟩
  · rw [hchar]
    constructor
    · rintro (hc | ⟨-, w, hw, -⟩)
      · simpa using hc
      · simp only [List.mem_singleton] at hw
        have : ('@' :: w).head? = ("admin@special.com".toList).head? := by rw [hw]
        simp at this
    · rintro rfl
      exact Or.inl (by simp)
  · unfold registerGate
    by_cases hall : registerAllowed entries cand
    · simp [hall]
    · simp [hall]

/-! ## Device credentials (app/dependencies.py, app/routers/admin.py)

The api_keys table is a list of rows; the handlers look a row up and
commit a single-field update, modelled as a map over the list keyed by
the primary key id. -/

/-- The fields of the api_keys table (app/models.py APIKey) used by the
authorization and lifecycle handlers. -/
structure APIKeyR where
  id : Nat
  key : String
  sensor_id : String
  hospital_id : Nat
  is_active : Bool
  is_validated : Bool
  last_used : Option Nat
deriving DecidableEq, Repr

/-- verify_api_key (app/dependencies.py lines 81-108): the query filters
on key equality AND is_active, so a missing or revoked key is the same
401; an active but unvalidated key is 403; otherwise last_used is set to
now and the key returned. -/
def verify_api_key (keys : List APIKeyR) (x_api_key : String) (now : Nat) :
    Except HErr APIKeyR × List APIKeyR :=
  match keys.find? (fun k => k.key == x_api_key && k.is_active) with
  | none => (.error ⟨401, "Invalid API key"⟩, keys)
  | some k =>
    if ¬ k.is_validated then
      (.error ⟨403, "API key pending admin validation"⟩, keys)
    else
      (.ok { k with last_used := some now },
       keys.map (fun j => if j.id == k.id then { k with last_used := some now } else j))

/-- validate_api_key (app/routers/admin.py lines 560-579): looks the row
up by id and sets is_validated to True; it never touches is_active. -/
def validate_api_key (keys : List APIKeyR) (key_id : Nat) :
    Except HErr APIKeyR × List APIKeyR :=
  match keys.find? (fun k => k.id == key_id) with
  | none => (.error ⟨404, "API key not found"⟩, keys)
  | some k =>
    (.ok { k with is_validated := true },
     keys.map (fun j => if j.id == k.id then { k with is_validated := true } else j))

/-- revoke_api_key (app/routers/admin.py lines 259-277): looks the row up
by id and sets is_active to False. -/
def revoke_api_key (keys : List APIKeyR) (key_id : Nat) :
    Except HErr Unit × List APIKeyR :=
  match keys.find? (fun k => k.id == key_id) with
  | none => (.error ⟨404, "API key not found"⟩, keys)
  | some k =>
    (.ok (),
     keys.map (fun j => if j.id == k.id then { k with is_active := false } else j))

/-- Sample key: active and validated. -/
def key1 : APIKeyR :=
  { id := 1, key := "sk_a", sensor_id := "s1", hospital_id := 1,
    is_active := true, is_validated := true, last_used := none }

/-- Sample key: active but pending validation. -/
def key2 : APIKeyR :=
  { id := 2, key := "sk_b", sensor_id := "s2", hospital_id := 1,
    is_active := true, is_validated := false, last_used := none }

/-- Sample key: revoked. -/
def key3 : APIKeyR :=
  { id := 3, key := "sk_c", sensor_id := "s3", hospital_id := 2,
    is_active := false, is_validated := true, last_used := none }

/-- Sample key table. -/
def keysSample : List APIKeyR := [key1, key2, key3]

example : (verify_api_key keysSample "sk_a" 50).1 =
    .ok { id := 1, key := "sk_a", sensor_id := "s1", hospital_id := 1,
          is_active := true, is_validated := true, last_used := some 50 } := rfl

example : (verify_api_key keysSample "sk_b" 50).1 =
    .error ⟨403, "API key pending admin validation"⟩ := rfl

example : (verify_api_key keysSample "sk_c" 50).1 =
    .error ⟨401, "Invalid API key"⟩ := rfl

example : (verify_api_key ((validate_api_key keysSample 3).2) "sk_c" 50).1 =
    .error ⟨401, "Invalid API key"⟩ := rfl

/-- C5: device authorization fails closed.  A stored key authorizes only
when it matches, is active and is validated; an active but unvalidated
key is 403 Forbidden; a missing or revoked key is 401 Unauthorized; a
revoked key stays 401 even after the admin validation action is re-run on
it, since validation only sets is_validated; and each successful
authorization refreshes the last-used timestamp. -/
theorem api_key_fails_closed (keys : List APIKeyR) (x : String) (now : Nat) :
    (∀ k, keys.find? (fun j => j.key == x && j.is_active) = some k →
        (k.is_validated = true →
          (verify_api_key keys x now).1 = .ok { k with last_used := some now }) ∧
        (k.is_validated = false →
          (verify_api_key keys x now).1 =
            .error ⟨403, "API key pending admin validation"⟩)) ∧
    (keys.find? (fun j => j.key == x && j.is_active) = none →
        (verify_api_key keys x now).1 = .error ⟨401, "Invalid API key"⟩) ∧
    (∀ r, (verify_api_key keys x now).1 = .ok r →
        ∃ k ∈ keys, k.key = x ∧ k.is_active = true ∧ k.is_validated = true ∧
          r = { k with last_used := some now }) ∧
    (∀ kid k, keys.find? (fun j => j.id == kid) = some k →
        k.is_active = false →
        (∀ j ∈ keys, j.key = k.key → j.id = k.id) →
        (verify_api_key ((validate_api_key keys kid).2) k.key now).1 =
          .error ⟨401, "Invalid API key"⟩) := by
  refine ⟨fun k hk => ⟨fun hv => ?_, fun hv => ?_⟩, fun hn => ?_, fun r hr => ?_,
    fun kid k hk hrev huniq => ?_⟩
  · unfold verify_api_key
    simp only [hk]
    simp [hv]
  · unfold verify_api_key
    simp only [hk]
    simp [hv]
  · unfold verify_api_key
    simp only [hn]
  · unfold verify_api_key at hr
    cases hfind : keys.find? (fun j => j.key == x && j.is_active) with
    | none =>
      simp only [hfind] at hr
      simp at hr
    | some k =>
      simp only [hfind] at hr
      by_cases hv : k.is_validated = true
      · refine ⟨k, List.mem_of_find?_eq_some hfind, ?_, ?_, hv, ?_⟩
        · have := List.find?_some hfind
          simp only [Bool.and_eq_true, beq_iff_eq] at this
          exact this.1
        · have := List.find?_some hfind
          simp only [Bool.and_eq_true, beq_iff_eq] at this
          exact this.2
        · rw [hv]
          simp only [hv] at hr
          simp at hr
          exact hr.symm
      · simp only [Bool.not_eq_true] at hv
        simp [hv] at hr
  · unfold validate_api_key
    simp only [hk]
    unfold verify_api_key
    have hnone : (keys.map (fun j => if j.id == k.id then { k with is_validated := true }
          else j)).find? (fun j => j.key == k.key && j.is_active) = none := by
      rw [List.find?_eq_none]
      intro j' hj'
      rw [List.mem_map] at hj'
      obtain ⟨j, hj, rfl⟩ := hj'
      by_cases hid : j.id = k.id
      · rw [if_pos (by simp [hid])]
        simp [hrev]
      · rw [if_neg (by simp [hid])]
        have hkey : j.key ≠ k.key := fun hkk => hid (huniq j hj hkk)
        simp [hkey]
    simp only [hnone]

/-- Witness for C5 on the sample key table: the pending key is 403, the
revoked key is 401 and stays 401 after re-validation, the good key
authorizes and its last-used timestamp is refreshed. -/
theorem api_key_fails_closed_witness :
    (verify_api_key keysSample "sk_b" 50).1 =
      .error ⟨403, "API key pending admin validation"⟩ ∧
    (verify_api_key keysSample "sk_c" 50).1 = .error ⟨401, "Invalid API key"⟩ ∧
    (verify_api_key ((validate_api_key keysSample 3).2) "sk_c" 50).1 =
      .error ⟨401, "Invalid API key"⟩ ∧
    (verify_api_key keysSample "sk_a" 50).1 =
      .ok { key1 with last_used := some 50 } := by
  have ha := api_key_fails_closed keysSample "sk_a" 50
  have hb := api_key_fails_closed keysSample "sk_b" 50
  have hc := api_key_fails_closed keysSample "sk_c" 50
  refine ⟨(hb.1 key2 rfl).2 rfl, hc.2.1 rfl, ?_, (ha.1 key1 rfl).1 rfl⟩
  exact hc.2.2.2 3 key3 rfl rfl (by decide)

/-! ## Role-based query scoping (app/routers/dashboard.py, region.py)

The sensor-data queries are embedded over explicit table contents.  The
SQL pipeline filter / join / order_by timestamp desc / limit becomes
filter, then an insertion sort descending by timestamp, then take. -/

/-- The columns of the hospitals table used by scoping. -/
structure HospitalR where
  id : Nat
  region_id : Nat
deriving DecidableEq, Repr

/-- The columns of the sensor_data table used by scoping. -/
structure SensorDataR where
  id : Nat
  hospital_id : Nat
  sensor_id : String
  timestamp : Nat
deriving DecidableEq, Repr

/-- The tables a sensor-data query reads. -/
structure DataDB where
  sensors : List SensorDataR
  hospitals : List HospitalR
deriving Repr

/-- Python truthiness of an optional integer column: None and 0 are
falsy. -/
def pyOptTruthy : Option Nat → Bool
  | none => false
  | some n => n != 0

/-- Insert into a list kept in descending timestamp order. -/
def insertByTs (a : SensorDataR) : List SensorDataR → List SensorDataR
  | [] => [a]
  | b :: bs => if b.timestamp ≤ a.timestamp then a :: b :: bs else b :: insertByTs a bs

/-- order_by(SensorData.timestamp.desc()). -/
def sortByTsDesc (l : List SensorDataR) : List SensorDataR :=
  l.foldr insertByTs []

theorem mem_insertByTs {x a : SensorDataR} {l : List SensorDataR} :
    x ∈ insertByTs a l ↔ x = a ∨ x ∈ l := by
  induction l with
  | nil => simp [insertByTs]
  | cons b bs ih =>
    unfold insertByTs
    by_cases hcmp : b.timestamp ≤ a.timestamp
    · rw [if_pos hcmp]
      simp
    · rw [if_neg hcmp]
      simp [ih]
      tauto

theorem mem_sortByTsDesc {x : SensorDataR} {l : List SensorDataR} :
    x ∈ sortByTsDesc l ↔ x ∈ l := by
  induction l with
  | nil => simp [sortByTsDesc]
  | cons b bs ih =>
    unfold sortByTsDesc at ih ⊢
    simp [List.foldr, mem_insertByTs, ih]

/-- The membership bound of a query result: whatever survives
sort-then-limit came from the filtered rows. -/
theorem mem_of_query {x : SensorDataR} {l : List SensorDataR} {n : Nat}
    (h : x ∈ (sortByTsDesc l).take n) : x ∈ l :=
  mem_sortByTsDesc.mp (List.mem_of_mem_take h)

/-- The join-based region filter of both region-scoped queries:
query(SensorData).join(Hospital).filter(Hospital.region_id == region). -/
def regionFilter (db : DataDB) (region : Option Nat) : List SensorDataR :=
  db.sensors.filter (fun s =>
    db.hospitals.any (fun h => h.id == s.hospital_id && some h.region_id == region))

/-- get_dashboard_sensor_data (app/routers/dashboard.py lines 90-124):
Pending is 403; HospitalUser needs a (truthy) hospital assignment and is
filtered to it; RegionAdmin needs a (truthy) region assignment and is
filtered through the hospital join; everyone else (Admin) is unfiltered. -/
def get_dashboard_sensor_data (u : UserR) (db : DataDB) (limit : Nat) :
    Except HErr (List SensorDataR) :=
  if u.role = 1 then
    .error ⟨403, "Pending users do not have access to sensor data"⟩
  else if u.role = 4 then
    if ¬ pyOptTruthy u.hospital_id then
      .error ⟨400, "Hospital user must be assigned to a hospital"⟩
    else
      .ok ((sortByTsDesc (db.sensors.filter
        (fun s => some s.hospital_id == u.hospital_id))).take limit)
  else if u.role = 3 then
    if ¬ pyOptTruthy u.region_id then
      .error ⟨400, "Region admin must be assigned to a region"⟩
    else
      .ok ((sortByTsDesc (regionFilter db u.region_id)).take limit)
  else
    .ok ((sortByTsDesc db.sensors).take limit)

/-- get_region_sensor_data (app/routers/region.py lines 115-137): Admin
sees everything; anyone else the dependency admits (RegionAdmin) needs a
region and is filtered through the hospital join. -/
def get_region_sensor_data (u : UserR) (db : DataDB) (limit : Nat) :
    Except HErr (List SensorDataR) :=
  if u.role = 2 then
    .ok ((sortByTsDesc db.sensors).take limit)
  else if ¬ pyOptTruthy u.region_id then
    .error ⟨400, "Region admin must be assigned to a region"⟩
  else
    .ok ((sortByTsDesc (regionFilter db u.region_id)).take limit)

/-- require_region_admin_or_admin (app/dependencies.py lines 71-78). -/
def require_region_admin_or_admin (u : UserR) : Except HErr UserR :=
  if u.role < 2 ∨ u.role > 3 then
    .error ⟨403, "Region admin or admin access required"⟩
  else .ok u

/-- The region sensor-data endpoint: dependency gate, then handler. -/
def region_sensor_data_endpoint (u : UserR) (db : DataDB) (limit : Nat) :
    Except HErr (List SensorDataR) :=
  match require_region_admin_or_admin u with
  | .error e => .error e
  | .ok v => get_region_sensor_data v db limit

/-- Sample tables: hospitals 10 and 12 in region 5, hospital 11 in
region 7; one reading per hospital. -/
def dbSample : DataDB :=
  { sensors := [⟨1, 10, "s1", 5⟩, ⟨2, 11, "s2", 9⟩, ⟨3, 12, "s3", 7⟩],
    hospitals := [⟨10, 5⟩, ⟨11, 7⟩, ⟨12, 5⟩] }

/-- Sample RegionAdmin assigned to region 5. -/
def uRegionSample : UserR :=
  { uSample with id := 2, username := "ra", role := 3, region_id := some 5 }

/-- Sample Admin caller. -/
def uAdminSample : UserR := { uSample with id := 3, username := "adm", role := 2 }

/-- Sample HospitalUser assigned to hospital 10. -/
def uHospSample : UserR :=
  { uSample with id := 4, username := "hu", role := 4, hospital_id := some 10 }

/-- Sample Pending user. -/
def uPendingSample : UserR := { uSample with id := 5, username := "p", role := 1 }

example : get_dashboard_sensor_data uAdminSample dbSample 50 =
    .ok [⟨2, 11, "s2", 9⟩, ⟨3, 12, "s3", 7⟩, ⟨1, 10, "s1", 5⟩] := rfl

example : get_dashboard_sensor_data uRegionSample dbSample 50 =
    .ok [⟨3, 12, "s3", 7⟩, ⟨1, 10, "s1", 5⟩] := rfl

example : get_dashboard_sensor_data uHospSample dbSample 50 =
    .ok [⟨1, 10, "s1", 5⟩] := rfl

example : get_dashboard_sensor_data uPendingSample dbSample 50 =
    .error ⟨403, "Pending users do not have access to sensor data"⟩ := rfl

example : region_sensor_data_endpoint uRegionSample dbSample 50 =
    .ok [⟨3, 12, "s3", 7⟩, ⟨1, 10, "s1", 5⟩] := rfl

theorem regionFilter_mem {db : DataDB} {reg : Option Nat} {s : SensorDataR}
    (h : s ∈ regionFilter db reg) :
    ∃ hp ∈ db.hospitals, hp.id = s.hospital_id ∧ some hp.region_id = reg := by
  unfold regionFilter at h
  obtain ⟨-, hany⟩ := List.mem_filter.mp h
  obtain ⟨hp, hmem, hcond⟩ := List.any_eq_true.mp hany
  simp only [Bool.and_eq_true, beq_iff_eq] at hcond
  exact ⟨hp, hmem, hcond.1, hcond.2⟩

/-- C1: the role table governs the sensor-data queries.  Pending (1) is
always denied with 403; Admin (2) gets the unrestricted query on both
endpoints; RegionAdmin (3) gets only readings of hospitals in the
caller region and fails with the invalid-state 400 when no region is
assigned; HospitalUser (4) gets only readings of the caller hospital and
fails with the invalid-state 400 when no hospital is assigned. -/
theorem rbac_sensor_scoping (u : UserR) (db : DataDB) (limit : Nat) :
    (u.role = 1 →
      get_dashboard_sensor_data u db limit =
        .error ⟨403, "Pending users do not have access to sensor data"⟩ ∧
      region_sensor_data_endpoint u db limit =
        .error ⟨403, "Region admin or admin access required"⟩) ∧
    (u.role = 2 →
      get_dashboard_sensor_data u db limit = .ok ((sortByTsDesc db.sensors).take limit) ∧
      region_sensor_data_endpoint u db limit =
        .ok ((sortByTsDesc db.sensors).take limit)) ∧
    (∀ r, u.role = 3 → u.region_id = some r → r ≠ 0 →
      (∀ xs, get_dashboard_sensor_data u db limit = .ok xs →
        ∀ s ∈ xs, ∃ hp ∈ db.hospitals, hp.id = s.hospital_id ∧ hp.region_id = r) ∧
      (∀ xs, region_sensor_data_endpoint u db limit = .ok xs →
        ∀ s ∈ xs, ∃ hp ∈ db.hospitals, hp.id = s.hospital_id ∧ hp.region_id = r)) ∧
    (u.role = 3 → u.region_id = none →
      get_dashboard_sensor_data u db limit =
        .error ⟨400, "Region admin must be assigned to a region"⟩ ∧
      region_sensor_data_endpoint u db limit =
        .error ⟨400, "Region admin must be assigned to a region"⟩) ∧
    (∀ hh, u.role = 4 → u.hospital_id = some hh → hh ≠ 0 →
      ∀ xs, get_dashboard_sensor_data u db limit = .ok xs →
        ∀ s ∈ xs, s.hospital_id = hh) ∧
    (u.role = 4 → u.hospital_id = none →
      get_dashboard_sensor_data u db limit =
        .error ⟨400, "Hospital user must be assigned to a hospital"⟩) := by
  refine ⟨fun h1 => ⟨?_, ?_⟩, fun h2 => ⟨?_, ?_⟩, fun r h3 hreg hr0 => ⟨?_, ?_⟩,
    fun h3 hreg => ⟨?_, ?_⟩, fun hh h4 hhos hh0 => ?_, fun h4 hhos => ?_⟩
  · simp [get_dashboard_sensor_data, h1]
  · simp [region_sensor_data_endpoint, require_region_admin_or_admin, h1]
  · simp [get_dashboard_sensor_data, h2]
  · simp [region_sensor_data_endpoint, require_region_admin_or_admin,
      get_region_sensor_data, h2]
  · intro xs hxs s hs
    have heq : get_dashboard_sensor_data u db limit =
        .ok ((sortByTsDesc (regionFilter db u.region_id)).take limit) := by
      simp [get_dashboard_sensor_data, h3, hreg, pyOptTruthy, hr0]
    rw [heq] at hxs
    obtain rfl := (Except.ok.inj hxs)
    have hmem := mem_of_query hs
    obtain ⟨hp, hpm, hpid, hpreg⟩ := regionFilter_mem hmem
    rw [hreg] at hpreg
    exact ⟨hp, hpm, hpid, Option.some.inj hpreg⟩
  · intro xs hxs s hs
    have heq : region_sensor_data_endpoint u db limit =
        .ok ((sortByTsDesc (regionFilter db u.region_id)).take limit) := by
      simp [region_sensor_data_endpoint, require_region_admin_or_admin,
        get_region_sensor_data, h3, hreg, pyOptTruthy, hr0]
    rw [heq] at hxs
    obtain rfl := (Except.ok.inj hxs)
    have hmem := mem_of_query hs
    obtain ⟨hp, hpm, hpid, hpreg⟩ := regionFilter_mem hmem
    rw [hreg] at hpreg
    exact ⟨hp, hpm, hpid, Option.some.inj hpreg⟩
  · simp [get_dashboard_sensor_data, h3, hreg, pyOptTruthy]
  · simp [region_sensor_data_endpoint, require_region_admin_or_admin,
      get_region_sensor_data, h3, hreg, pyOptTruthy]
  · intro xs hxs s hs
    have heq : get_dashboard_sensor_data u db limit =
        .ok ((sortByTsDesc (db.sensors.filter
          (fun s2 => some s2.hospital_id == u.hospital_id))).take limit) := by
      simp [get_dashboard_sensor_data, h4, hhos, pyOptTruthy, hh0]
    rw [heq] at hxs
    obtain rfl := (Except.ok.inj hxs)
    have hmem := mem_of_query hs
    have hcond := (List.mem_filter.mp hmem).2
    rw [hhos] at hcond
    simpa using hcond
  · simp [get_dashboard_sensor_data, h4, hhos, pyOptTruthy]

/-- Witness for C1 on the sample tables: the Pending caller is denied,
the Admin query is unrestricted, every row the region-admin query
returns lies in region 5, every row the hospital-user query returns is
hospital 10, and unassigned callers get the invalid-state 400. -/
theorem rbac_sensor_scoping_witness :
    get_dashboard_sensor_data uPendingSample dbSample 50 =
      .error ⟨403, "Pending users do not have access to sensor data"⟩ ∧
    get_dashboard_sensor_data uAdminSample dbSample 50 =
      .ok ((sortByTsDesc dbSample.sensors).take 50) ∧
    (∀ s ∈ [(⟨3, 12, "s3", 7⟩ : SensorDataR), ⟨1, 10, "s1", 5⟩],
      ∃ hp ∈ dbSample.hospitals, hp.id = s.hospital_id ∧ hp.region_id = 5) ∧
    get_dashboard_sensor_data { uRegionSample with region_id := none } dbSample 50 =
      .error ⟨400, "Region admin must be assigned to a region"⟩ ∧
    (∀ s ∈ [(⟨1, 10, "s1", 5⟩ : SensorDataR)], s.hospital_id = 10) ∧
    get_dashboard_sensor_data { uHospSample with hospital_id := none } dbSample 50 =
      .error ⟨400, "Hospital user must be assigned to a hospital"⟩ := by
  have hp := rbac_sensor_scoping uPendingSample dbSample 50
  have ha := rbac_sensor_scoping uAdminSample dbSample 50
  have hr := rbac_sensor_scoping uRegionSample dbSample 50
  have hrn := rbac_sensor_scoping { uRegionSample with region_id := none } dbSample 50
  have hhu := rbac_sensor_scoping uHospSample dbSample 50
  have hhn := rbac_sensor_scoping { uHospSample with hospital_id := none } dbSample 50
  refine ⟨(hp.1 rfl).1, (ha.2.1 rfl).1, ?_, ((hrn.2.2.2.1) rfl rfl).1, ?_,
    (hhn.2.2.2.2.2) rfl rfl⟩
  · exact (hr.2.2.1 5 rfl rfl (by decide)).1 [⟨3, 12, "s3", 7⟩, ⟨1, 10, "s1", 5⟩] rfl
  · exact hhu.2.2.2.2.1 10 rfl rfl (by decide) [⟨1, 10, "s1", 5⟩] rfl

/-- assign_user_to_hospital (app/routers/region.py lines 40-91): looks the
target user up by id; a RegionAdmin caller needs a (truthy) region, may
only touch users of their own region, and — when a (truthy) hospital id is
supplied — the hospital must exist and, again only for a RegionAdmin
caller, must lie in the caller region; then the assignment is written. -/
def assign_user_to_hospital (cur : UserR) (users : List UserR)
    (hospitals : List HospitalR) (user_id : Nat)
    (assignment_hospital_id : Option Nat) : Except HErr UserR × List UserR :=
  match users.find? (fun v => v.id == user_id) with
  | none => (.error ⟨404, "User not found"⟩, users)
  | some user =>
    if cur.role = 3 ∧ ¬ pyOptTruthy cur.region_id then
      (.error ⟨400, "Region admin must be assigned to a region"⟩, users)
    else if cur.role = 3 ∧ user.region_id ≠ cur.region_id then
      (.error ⟨403, "Can only assign users within your region"⟩, users)
    else if pyOptTruthy assignment_hospital_id then
      match hospitals.find? (fun h => some h.id == assignment_hospital_id) with
      | none => (.error ⟨404, "Hospital not found"⟩, users)
      | some hospital =>
        if cur.role = 3 ∧ some hospital.region_id ≠ cur.region_id then
          (.error ⟨403, "Hospital is not in your region"⟩, users)
        else
          (.ok { user with hospital_id := assignment_hospital_id },
           users.map (fun v => if v.id == user.id then
             { user with hospital_id := assignment_hospital_id } else v))
    else (.ok user, users)

/-- Sample target user living in region 5. -/
def uTargetSample : UserR :=
  { uSample with id := 7, username := "t", role := 4, region_id := some 5 }

example : (assign_user_to_hospital uRegionSample [uTargetSample]
    [⟨10, 7⟩, ⟨11, 5⟩] 7 (some 10)).1 =
      .error ⟨403, "Hospital is not in your region"⟩ := rfl

example : (assign_user_to_hospital uRegionSample [uTargetSample]
    [⟨10, 7⟩, ⟨11, 5⟩] 7 (some 11)).1 =
      .ok { uTargetSample with hospital_id := some 11 } := rfl

example : (assign_user_to_hospital uAdminSample [uTargetSample]
    [⟨10, 7⟩, ⟨11, 5⟩] 7 (some 10)).1 =
      .ok { uTargetSample with hospital_id := some 10 } := rfl

/-- C7: the scoped write of a RegionAdmin is checked against the caller
region: assigning a user to a hospital fails with 403 when the hospital
region differs from the caller region and succeeds when it matches, while
an Admin caller is exempt from the check. -/
theorem region_admin_assignment_scope (cur : UserR) (users : List UserR)
    (hospitals : List HospitalR) (uid hid r : Nat) (target : UserR)
    (hosp : HospitalR)
    (hu : users.find? (fun v => v.id == uid) = some target)
    (hh : hospitals.find? (fun h => some h.id == some hid) = some hosp)
    (hhid : hid ≠ 0) :
    (cur.role = 3 → cur.region_id = some r → r ≠ 0 → target.region_id = some r →
      (hosp.region_id ≠ r →
        (assign_user_to_hospital cur users hospitals uid (some hid)).1 =
          .error ⟨403, "Hospital is not in your region"⟩) ∧
      (hosp.region_id = r →
        (assign_user_to_hospital cur users hospitals uid (some hid)).1 =
          .ok { target with hospital_id := some hid })) ∧
    (cur.role = 2 →
      (assign_user_to_hospital cur users hospitals uid (some hid)).1 =
        .ok { target with hospital_id := some hid }) := by
  constructor
  · intro h3 hreg hr0 htar
    constructor
    · intro hdiff
      unfold assign_user_to_hospital
      simp only [hu, hh]
      simp [h3, hreg, htar, pyOptTruthy, hr0, hhid, hdiff]
    · intro hsame
      unfold assign_user_to_hospital
      simp only [hu, hh]
      simp [h3, hreg, htar, pyOptTruthy, hr0, hhid, hsame]
  · intro h2
    unfold assign_user_to_hospital
    simp only [hu, hh]
    simp [h2, pyOptTruthy, hhid]

/-- Witness for C7 mirroring the spec example: caller region 5, hospital
in region 7 is refused, hospital in region 5 is accepted, Admin may
assign across regions. -/
theorem region_admin_assignment_scope_witness :
    (assign_user_to_hospital uRegionSample [uTargetSample]
        [⟨10, 7⟩, ⟨11, 5⟩] 7 (some 10)).1 =
      .error ⟨403, "Hospital is not in your region"⟩ ∧
    (assign_user_to_hospital uRegionSample [uTargetSample]
        [⟨10, 7⟩, ⟨11, 5⟩] 7 (some 11)).1 =
      .ok { uTargetSample with hospital_id := some 11 } ∧
    (assign_user_to_hospital uAdminSample [uTargetSample]
        [⟨10, 7⟩, ⟨11, 5⟩] 7 (some 10)).1 =
      .ok { uTargetSample with hospital_id := some 10 } := by
  have h10 := region_admin_assignment_scope uRegionSample [uTargetSample]
    [⟨10, 7⟩, ⟨11, 5⟩] 7 10 5 uTargetSample ⟨10, 7⟩ rfl rfl (by decide)
  have h11 := region_admin_assignment_scope uRegionSample [uTargetSample]
    [⟨10, 7⟩, ⟨11, 5⟩] 7 11 5 uTargetSample ⟨11, 5⟩ rfl rfl (by decide)
  have hadm := region_admin_assignment_scope uAdminSample [uTargetSample]
    [⟨10, 7⟩, ⟨11, 5⟩] 7 10 5 uTargetSample ⟨10, 7⟩ rfl rfl (by decide)
  exact ⟨(h10.1 rfl rfl (by decide) rfl).1 (by decide),
    (h11.1 rfl rfl (by decide) rfl).2 rfl, hadm.2 rfl⟩

/-! ## Password hashing (app/auth.py lines 17-32)

A Python string is a list of unicode codepoints; encode to UTF-8 is made
explicit because the handlers measure BYTES (len of the encoding) but
truncate CHARACTERS (a string slice).  The bcrypt library itself keys on
at most the first 72 bytes of its input and raises ValueError on a
malformed stored hash; its one-way kernel is a parameter digest, assumed
collision-free where the claim needs it. -/

/-- A Python string: a list of unicode codepoints. -/
abbrev PyStr := List Nat

/-- The UTF-8 encoding of one codepoint. -/
def utf8Bytes (c : Nat) : List Nat :=
  if c < 128 then [c]
  else if c < 2048 then [192 + c / 64, 128 + c % 64]
  else if c < 65536 then [224 + c / 4096, 128 + (c / 64) % 64, 128 + c % 64]
  else [240 + c / 262144, 128 + (c / 4096) % 64, 128 + (c / 64) % 64, 128 + c % 64]

/-- str.encode of Python: the concatenated UTF-8 bytes. -/
def utf8Encode : PyStr → List Nat
  | [] => []
  | c :: cs => utf8Bytes c ++ utf8Encode cs

theorem utf8Bytes_length_pos (c : Nat) : 1 ≤ (utf8Bytes c).length := by
  unfold utf8Bytes
  split_ifs <;> simp

theorem utf8Encode_append (a b : PyStr) :
    utf8Encode (a ++ b) = utf8Encode a ++ utf8Encode b := by
  induction a with
  | nil => simp [utf8Encode]
  | cons c cs ih => simp [utf8Encode, ih]

theorem length_le_utf8Encode (l : PyStr) : l.length ≤ (utf8Encode l).length := by
  induction l with
  | nil => simp [utf8Encode]
  | cons c cs ih =>
    simp only [utf8Encode, List.length_append, List.length_cons]
    have := utf8Bytes_length_pos c
    omega

/-- The character-level truncation of both handlers: password[:72] is
applied when len(password.encode(utf-8)) > 72. -/
def pyTrunc72 (p : PyStr) : PyStr :=
  if 72 < (utf8Encode p).length then p.take 72 else p

/-- The bytes the handler truncation followed by the library byte-level
truncation actually feed to the bcrypt kernel coincide with the plain
72-byte prefix of the full encoding: characters beyond position 72 lie
beyond byte 72. -/
theorem pyTrunc72_bytes (p : PyStr) :
    (utf8Encode (pyTrunc72 p)).take 72 = (utf8Encode p).take 72 := by
  unfold pyTrunc72
  split_ifs with hlen
  · by_cases hp : p.length ≤ 72
    · rw [List.take_of_length_le hp]
    · have h72 : 72 ≤ (utf8Encode (p.take 72)).length := by
        have h1 := length_le_utf8Encode (p.take 72)
        rw [List.length_take] at h1
        omega
      have hsplit : utf8Encode p = utf8Encode (p.take 72) ++ utf8Encode (p.drop 72) := by
        rw [← utf8Encode_append, List.take_append_drop]
      rw [hsplit, List.take_append_of_le_length h72]
  · rfl

/-- A well-formed bcrypt hash string: the salt it carries and the stored
digest value. -/
structure BHash (D : Type) where
  salt : Nat
  dig : D

/-- bcrypt.hashpw of the external bcrypt library: digests at most the
first 72 bytes of the input together with the salt. -/
def bcrypt_hashpw {D : Type} (digest : List Nat → Nat → D)
    (pwBytes : List Nat) (salt : Nat) : BHash D :=
  ⟨salt, digest (pwBytes.take 72) salt⟩

/-- bcrypt.checkpw of the external bcrypt library on a well-formed stored
hash: re-hash under the stored salt and compare digests. -/
def bcrypt_checkpw {D : Type} [DecidableEq D] (digest : List Nat → Nat → D)
    (pwBytes : List Nat) (h : BHash D) : Bool :=
  decide (digest (pwBytes.take 72) h.salt = h.dig)

/-- get_password_hash (app/auth.py lines 27-32): truncate to 72
characters when the encoding exceeds 72 bytes, then bcrypt.hashpw. -/
def get_password_hash {D : Type} (digest : List Nat → Nat → D)
    (p : PyStr) (salt : Nat) : BHash D :=
  bcrypt_hashpw digest (utf8Encode (pyTrunc72 p)) salt

/-- verify_password (app/auth.py lines 17-24): the same truncation, then
bcrypt.checkpw, with no exception handler — a malformed stored hash
(none) makes checkpw raise ValueError, which escapes the function. -/
def verify_password {D : Type} [DecidableEq D] (digest : List Nat → Nat → D)
    (p : PyStr) (stored : Option (BHash D)) : Except String Bool :=
  match stored with
  | none => .error "ValueError: Invalid salt"
  | some h => .ok (bcrypt_checkpw digest (utf8Encode (pyTrunc72 p)) h)

/-- Transparent digest used for concrete evaluation: keeps the truncated
bytes and the salt, hence trivially collision-free. -/
def pairDigest : List Nat → Nat → List Nat × Nat := fun b s => (b, s)

example : verify_password pairDigest [97]
    (some (get_password_hash pairDigest [97] 3)) = .ok true := rfl

example : verify_password pairDigest [98]
    (some (get_password_hash pairDigest [97] 3)) = .ok false := rfl

/-- C8: the round-trip laws of the password verifier, for any
collision-free bcrypt kernel: a password verifies against its own hash
(also beyond 72 bytes, since the truncation is applied identically on
both paths); two passwords whose UTF-8 encodings differ within the first
72 bytes never cross-verify; and the bytes reaching the kernel are
exactly the 72-byte prefix of the encoding on both paths. -/
theorem password_hash_roundtrip {D : Type} [DecidableEq D]
    (digest : List Nat → Nat → D)
    (hinj : ∀ b1 b2 s, digest b1 s = digest b2 s → b1 = b2) :
    (∀ (p : PyStr) (salt : Nat),
      verify_password digest p (some (get_password_hash digest p salt)) = .ok true) ∧
    (∀ (p1 p2 : PyStr) (salt : Nat),
      (utf8Encode p1).take 72 ≠ (utf8Encode p2).take 72 →
      verify_password digest p1 (some (get_password_hash digest p2 salt)) = .ok false) ∧
    (∀ p : PyStr, (utf8Encode (pyTrunc72 p)).take 72 = (utf8Encode p).take 72) := by
  refine ⟨fun p salt => ?_, fun p1 p2 salt hne => ?_, pyTrunc72_bytes⟩
  · simp [verify_password, get_password_hash, bcrypt_hashpw, bcrypt_checkpw]
  · simp only [verify_password, get_password_hash, bcrypt_hashpw, bcrypt_checkpw,
      Except.ok.injEq, decide_eq_false_iff_not]
    intro hdig
    have hb := hinj _ _ _ hdig
    rw [pyTrunc72_bytes, pyTrunc72_bytes] at hb
    exact hne hb

/-- Witness for C8 with the transparent kernel: a one-byte password
round-trips, a different one-byte password is refused. -/
theorem password_hash_roundtrip_witness :
    verify_password pairDigest [97]
      (some (get_password_hash pairDigest [97] 3)) = .ok true ∧
    verify_password pairDigest [98]
      (some (get_password_hash pairDigest [97] 3)) = .ok false := by
  have h := password_hash_roundtrip pairDigest
    (fun b1 b2 s hh => congrArg Prod.fst hh)
  exact ⟨h.1 [97] 3, h.2.1 [98] [97] 3 (by decide)⟩

/-- C9 counterexample: a malformed stored hash does not yield false — the
library raises ValueError and verify_password has no handler, so the
exception escapes the boundary. -/
theorem verify_password_malformed_raises_counterexample :
    verify_password pairDigest [97] none = .error "ValueError: Invalid salt" := rfl

/-- C9 amended: for a malformed stored hash verify_password raises
(ValueError propagates past the boundary); only a well-formed stored hash
yields a boolean, false on mismatch. -/
theorem verify_password_malformed_raises {D : Type} [DecidableEq D]
    (digest : List Nat → Nat → D) :
    (∀ p : PyStr, verify_password digest p none = .error "ValueError: Invalid salt") ∧
    (∀ (p : PyStr) (h : BHash D), ∃ b : Bool, verify_password digest p (some h) = .ok b) := by
  exact ⟨fun p => rfl, fun p h => ⟨_, rfl⟩⟩

end Water
